import Mathlib

/-!
Verification development for the GCC testsuite file
`gcc/testsuite/g++.dg/cpp2a/udlit-class-nttp-neg2.C`.

The file under scrutiny is a negative-diagnostic regression test: it declares
a struct `non_literal_class` with a constexpr variadic constructor and a
user-provided destructor, and then declares a literal-operator template
`operator"" _udl` whose non-type template parameter has type
`non_literal_class`, expecting two compiler errors (recorded by `dg-error`
directives on lines 12 and 13).

Below, the contents of the test file are embedded as data: a small C++
declaration AST mirrors the declarations of the translation unit, and the
DejaGnu directives are embedded as records.  The compiler front end and the
test harness are not part of the sources; where a claim depends on their
behaviour, a definition explicitly modelled from the specification stands in
for them.
-/

/-- Statements of the C++ fragment relevant to the test file.  All function
bodies in the file are empty, but the control-flow constructors are included
so that the absence of control flow is a meaningful structural fact. -/
inductive Stmt where
  | exprStmt
  | ifStmt (thenBranch elseBranch : List Stmt)
  | whileStmt (body : List Stmt)
  | forStmt (body : List Stmt)
  | switchStmt (body : List Stmt)
  | returnStmt
  | gotoStmt

/-- A statement is a control-flow statement unless it is a plain expression
statement. -/
def Stmt.isControlFlow : Stmt → Bool
  | Stmt.exprStmt => false
  | _ => true

/-- The C++ types appearing in the test file. -/
inductive CType where
  | intType
  | classType (name : String)
  deriving DecidableEq

/-- A C++ constructor declaration: whether it is `constexpr`, its fixed
parameter types, whether it ends in a C-style ellipsis, and its body. -/
structure CtorDecl where
  isConstexpr : Bool
  params : List CType
  isVariadic : Bool
  body : List Stmt

/-- The destructor of a class: implicitly declared, explicitly defaulted, or
user-provided (with its `constexpr` flag and body). -/
inductive DtorKind where
  | implicit
  | defaulted
  | userProvided (isConstexpr : Bool) (body : List Stmt)

/-- The statements of a destructor body (empty for implicit or defaulted
destructors). -/
def DtorKind.bodyStmts : DtorKind → List Stmt
  | DtorKind.userProvided _ b => b
  | _ => []

/-- A destructor is a constexpr destructor when it is trivial (implicit or
defaulted, in a class with no bases and no non-static data members) or
user-provided and marked `constexpr`. -/
def DtorKind.isConstexprDtor : DtorKind → Bool
  | DtorKind.implicit => true
  | DtorKind.defaulted => true
  | DtorKind.userProvided c _ => c

/-- A C++ class declaration as it appears in the test file: the classes in
the file have no base classes and no non-static data members, so only the
name, the constructors and the destructor are recorded. -/
structure ClassDecl where
  name : String
  ctors : List CtorDecl
  dtor : DtorKind

/-- Modelled from the spec: the C++2a literal-class-type rule that the
compiler front end (absent from the sources; only this test exercises it)
implements.  For a class with no base classes and no non-static data
members — the only case occurring in the test file — the class is a literal
type iff it has a constexpr destructor and at least one constexpr
constructor. -/
def ClassDecl.isLiteral (c : ClassDecl) : Bool :=
  c.dtor.isConstexprDtor && c.ctors.any (fun k => k.isConstexpr)

/-- A C++ function declaration: its name, return type, parameter types, the
types of its non-type template parameters (empty when the function is not a
template), and its body (`none` when the function is only declared). -/
structure FunctionDecl where
  name : String
  returnType : CType
  params : List CType
  templateParams : List CType
  body : Option (List Stmt)

/-- A top-level declaration of the translation unit. -/
inductive Decl where
  | classDecl (c : ClassDecl)
  | funDecl (f : FunctionDecl)
  | varDecl (name : String) (type : CType)

/-- Whether a top-level declaration is a class declaration. -/
def Decl.isClassDecl : Decl → Bool
  | Decl.classDecl _ => true
  | _ => false

/-- Whether a top-level declaration defines an object (a variable). -/
def Decl.definesObject : Decl → Bool
  | Decl.varDecl _ _ => true
  | _ => false

/-- Whether a top-level declaration is a definition of `main`. -/
def Decl.isMainFunction : Decl → Bool
  | Decl.funDecl f => f.name == ("main") && f.body.isSome
  | _ => false

/-- All statements contained in a top-level declaration's function bodies. -/
def Decl.stmts : Decl → List Stmt
  | Decl.classDecl c =>
      (c.ctors.map CtorDecl.body).flatten ++ c.dtor.bodyStmts
  | Decl.funDecl f => f.body.getD []
  | Decl.varDecl _ _ => []

/-- All statements contained anywhere in a translation unit. -/
def fileStmts (tu : List Decl) : List Stmt :=
  (tu.map Decl.stmts).flatten

/-- The constructor of `non_literal_class`, from lines 6-7 of the test file:
`constexpr non_literal_class(...) { }` — constexpr, no fixed parameters, a
C-style ellipsis, and an empty body. -/
def nlcCtor : CtorDecl :=
  { isConstexpr := true, params := [], isVariadic := true, body := [] }

/-- The struct `non_literal_class` of lines 6-10 of the test file: a single
constexpr variadic constructor and a user-provided, non-constexpr destructor
`~non_literal_class() {}` with an empty body. -/
def non_literal_class : ClassDecl :=
  { name := ("non_literal_class"),
    ctors := [nlcCtor],
    dtor := DtorKind.userProvided false [] }

/-- The literal-operator template declared (and never defined) on lines
12-13 of the test file: `template <non_literal_class> int operator"" _udl();`.
Its single template parameter is a non-type parameter of type
`non_literal_class`; its body is absent. -/
def operator_udl : FunctionDecl :=
  { name := ("operator\"\"_udl"),
    returnType := CType.intType,
    params := [],
    templateParams := [CType.classType ("non_literal_class")],
    body := none }

/-- The translation unit of the test file: exactly the struct declaration
and the literal-operator template declaration. -/
def translationUnit : List Decl :=
  [Decl.classDecl non_literal_class, Decl.funDecl operator_udl]

/-- The kinds of DejaGnu `dg-do` actions. -/
inductive DgDo where
  | compile
  | link
  | run
  | assemble
  | preprocess
  deriving DecidableEq

/-- The `dg-do` action of line 4 of the test file: `dg-do compile`. -/
def dgDoDirective : DgDo := DgDo.compile

/-- The target selector of line 4 of the test file: `target c++2a`. -/
def dgTargetSelector : String := "c++2a"

/-- A `dg-error` directive: the line it is attached to, the expected column
(the numeric prefix of the directive string), and the expected message
pattern (a Tcl regular expression). -/
structure DgError where
  line : Nat
  column : Nat
  pattern : String
  deriving DecidableEq

/-- The `dg-error` directive on line 12 of the test file, expecting column
11 and the given message text for the invalid non-type template parameter. -/
def dgError12 : DgError :=
  { line := 12, column := 11,
    pattern := "is not a valid type for a template non-type parameter because it is not literal" }

/-- The `dg-error` directive on line 13 of the test file, expecting column 5
and the given message pattern (with `.` wildcards and escaped parentheses)
for the invalid parameter list of the literal operator template. -/
def dgError13 : DgError :=
  { line := 13, column := 5,
    pattern := "literal operator template .int operator\"\"_udl\\(\\). has invalid parameter list" }

/-- The list of all `dg-error` directives of the test file. -/
def dgErrors : List DgError := [dgError12, dgError13]

/-- Match a pattern against a prefix of the message.  The pattern language
is the fragment of Tcl regular expressions that the test file's `dg-error`
patterns use: a literal character matches itself, `.` matches any character,
and a backslash escapes the following character. -/
def patMatchAt : List Char → List Char → Bool
  | [], _ => true
  | '\\' :: c :: ps, m :: ms => c == m && patMatchAt ps ms
  | '\\' :: _ :: _, [] => false
  | '.' :: ps, _ :: ms => patMatchAt ps ms
  | p :: ps, m :: ms => p == m && patMatchAt ps ms
  | _ :: _, [] => false

/-- Search for a match of the pattern at any position of the message, as
DejaGnu matches `dg-error` patterns unanchored within the diagnostic line. -/
def patSearch (p : List Char) : List Char → Bool
  | [] => patMatchAt p []
  | m :: ms => patMatchAt p (m :: ms) || patSearch p ms

/-- Whether the pattern of a `dg-error` directive matches somewhere in a
diagnostic message. -/
def dgMatches (pat msg : String) : Bool :=
  patSearch pat.data msg.data

/-- A compiler diagnostic: source line, source column, and message text. -/
structure Diagnostic where
  line : Nat
  column : Nat
  message : String
  deriving DecidableEq

/-- Modelled from the spec: the first diagnostic the compiler front end
(absent from the sources) emits for the test file — the error at line 12,
column 11, rejecting `non_literal_class` as the type of a template non-type
parameter because the type is not literal. -/
def diag12 : Diagnostic :=
  { line := 12, column := 11,
    message := "non_literal_class is not a valid type for a template non-type parameter because it is not literal" }

/-- Modelled from the spec: the second diagnostic the compiler front end
(absent from the sources) emits for the test file — the error at line 13,
column 5, rejecting the parameter list of the literal operator template. -/
def diag13 : Diagnostic :=
  { line := 13, column := 5,
    message := "literal operator template \"int operator\"\"_udl()\" has invalid parameter list" }

/-- Modelled from the spec: the behaviour of the compiler front end (absent
from the sources) on the test file.  In C++2a mode (language standard at
least C++20) the compiler rejects the file with exactly the two diagnostics
the `dg-error` directives expect, and no others; the spec states the invalid
use "is correctly rejected with specific diagnostics", and the DejaGnu
excess-errors check makes the two expected diagnostics exhaustive.  The
argument is the selected language standard, 20 standing for C++2a. -/
def compileDiagnostics (std : Nat) : List Diagnostic :=
  if 20 ≤ std then [diag12, diag13] else []

/-- The compiler rejects the file iff it emits at least one error. -/
def compileRejects (std : Nat) : Bool :=
  !(compileDiagnostics std).isEmpty

/-- Modelled from the spec: the DejaGnu harness dispatch (absent from the
sources) for the target selector `c++2a` of line 4 — the test is run exactly
when the effective language standard is at least C++20, and not at all under
any earlier standard. -/
def testRunsUnder (std : Nat) : Bool :=
  decide (20 ≤ std)

/-- Modelled from the spec: the C++ execution model (absent from the
sources) — a translation unit exhibits runtime behaviour only through a
definition of `main` or through the definition of an object (whose
construction and destruction run at runtime). -/
def hasRuntimeBehavior (tu : List Decl) : Bool :=
  tu.any (fun d => d.isMainFunction || d.definesObject)

/-- C1: in C++2a mode the compiler rejects the file, emitting an error at
line 12, column 11, whose text matches the pattern of the `dg-error`
directive on line 12 and which names the parameter type
`non_literal_class`. -/
theorem c1_rejects_nonliteral_nttp (std : Nat) (h : 20 ≤ std) :
    compileRejects std = true ∧
    ∃ d ∈ compileDiagnostics std,
      d.line = 12 ∧ d.column = 11 ∧
      dgMatches dgError12.pattern d.message = true ∧
      dgMatches ("non_literal_class") d.message = true := by
  have hd : compileDiagnostics std = [diag12, diag13] := by
    simp [compileDiagnostics, h]
  refine ⟨by simp [compileRejects, hd], diag12, by simp [hd], rfl, rfl, by decide, by decide⟩

/-- Witness for C1 at the concrete standard C++2a (std = 20). -/
theorem c1_rejects_nonliteral_nttp_witness :
    compileRejects 20 = true ∧
    ∃ d ∈ compileDiagnostics 20,
      d.line = 12 ∧ d.column = 11 ∧
      dgMatches dgError12.pattern d.message = true ∧
      dgMatches ("non_literal_class") d.message = true :=
  c1_rejects_nonliteral_nttp 20 (by decide)

/-- C2: in C++2a mode the compiler emits exactly the two expected
diagnostics and no others; the second one is at line 13, column 5, and its
text matches the pattern of the `dg-error` directive on line 13. -/
theorem c2_invalid_parameter_list_error (std : Nat) (h : 20 ≤ std) :
    compileDiagnostics std = [diag12, diag13] ∧
    (compileDiagnostics std).length = 2 ∧
    diag13.line = 13 ∧ diag13.column = 5 ∧
    dgMatches dgError13.pattern diag13.message = true := by
  have hd : compileDiagnostics std = [diag12, diag13] := by
    simp [compileDiagnostics, h]
  exact ⟨hd, by simp [hd], rfl, rfl, by decide⟩

/-- Witness for C2 at the concrete standard C++2a (std = 20). -/
theorem c2_invalid_parameter_list_error_witness :
    compileDiagnostics 20 = [diag12, diag13] ∧
    (compileDiagnostics 20).length = 2 ∧
    diag13.line = 13 ∧ diag13.column = 5 ∧
    dgMatches dgError13.pattern diag13.message = true :=
  c2_invalid_parameter_list_error 20 (by decide)

/-- C3: `non_literal_class` is not a literal class type under the C++2a
rule, and the failure is due to its destructor: the destructor is
user-provided and not constexpr, while the constructor condition holds. -/
theorem c3_not_literal_class :
    non_literal_class.isLiteral = false ∧
    non_literal_class.dtor = DtorKind.userProvided false [] ∧
    DtorKind.isConstexprDtor non_literal_class.dtor = false ∧
    (non_literal_class.ctors.any fun k => k.isConstexpr) = true :=
  ⟨rfl, rfl, rfl, rfl⟩

/-- C4: the translation unit consists exactly of the struct declaration and
the operator declaration; it contains no statements at all (hence no
control-flow statements), exactly one class declaration, and every function
body in the file is empty. -/
theorem c4_no_algorithm_no_control_flow :
    translationUnit = [Decl.classDecl non_literal_class, Decl.funDecl operator_udl] ∧
    fileStmts translationUnit = [] ∧
    ((fileStmts translationUnit).any Stmt.isControlFlow) = false ∧
    (translationUnit.countP Decl.isClassDecl) = 1 ∧
    (non_literal_class.ctors.all fun k => k.body.isEmpty) = true ∧
    DtorKind.bodyStmts non_literal_class.dtor = [] :=
  ⟨rfl, rfl, rfl, rfl, rfl, rfl⟩

/-- C5: the DejaGnu directive of line 4 makes the test compile-only with
target selector `c++2a`; the test runs under C++2a (std = 20) and is not
run at all under any earlier language standard. -/
theorem c5_compile_only_cpp2a :
    dgDoDirective = DgDo.compile ∧
    dgTargetSelector = "c++2a" ∧
    (∀ std : Nat, std < 20 → testRunsUnder std = false) ∧
    testRunsUnder 20 = true := by
  refine ⟨rfl, rfl, fun std hstd => ?_, rfl⟩
  simp only [testRunsUnder, decide_eq_false_iff_not]
  omega

/-- Witness for C5: under C++17 (std = 17) the test is not run. -/
theorem c5_compile_only_cpp2a_witness :
    testRunsUnder 17 = false :=
  c5_compile_only_cpp2a.2.2.1 17 (by decide)

/-- C6: the constructor of `non_literal_class` is constexpr and variadic,
the class is not literal, and replacing its user-provided destructor with a
defaulted one makes the class literal — so the destructor alone causes the
failure of literality. -/
theorem c6_destructor_sole_cause :
    non_literal_class.ctors = [nlcCtor] ∧
    nlcCtor.isConstexpr = true ∧
    nlcCtor.isVariadic = true ∧
    non_literal_class.isLiteral = false ∧
    ClassDecl.isLiteral { non_literal_class with dtor := DtorKind.defaulted } = true :=
  ⟨rfl, rfl, rfl, rfl, rfl⟩

/-- C7: the operator is declared but never defined, the translation unit
defines no objects and no `main` function, and therefore the translation
unit has no runtime behaviour. -/
theorem c7_no_runtime_behavior :
    operator_udl.body = none ∧
    (translationUnit.any Decl.definesObject) = false ∧
    (translationUnit.any Decl.isMainFunction) = false ∧
    hasRuntimeBehavior translationUnit = false :=
  ⟨rfl, rfl, rfl, rfl⟩
